import Mathlib

/-!
Verification development for the checkout-api payment service.

The definitions below are a shallow embedding of the Go source:
`payment/service.go` (payment creation, cancellation, transaction
generation, bonus allocation, balance check, reconciliation) and
`repository/dbtx.go` (transactional repository operations).  Database
transactions (Begin / deferred Rollback / Commit) are modelled by
returning the original state on every error path and the staged state
on commit.  External collaborators (Solana RPC, Jupiter quotes, webhook
sink, event bus) are modelled as value parameters or oracles.  Go's
`int64`/`int16` values are modelled as unbounded `Int`; all concrete
inputs used in the theorems below stay far inside the machine ranges,
where Go arithmetic and `Int` arithmetic agree, and Go's truncating
integer division is rendered by `Int.tdiv`.  Go's `uint64(x)`
conversion, whose wrap-around matters for balance comparisons, is
modelled explicitly modulo `2 ^ 64`.
-/

namespace Checkout

/-- Payment status enum, from the sqlc model (`repository`):
new, pending, completed, failed, canceled. -/
inductive PaymentStatus where
  | new
  | pending
  | completed
  | failed
  | canceled
deriving DecidableEq, Repr

/-- Transaction status enum, from the sqlc model (`repository`):
pending, completed, failed. -/
inductive TxStatus where
  | pending
  | completed
  | failed
deriving DecidableEq, Repr

/-- The Go string value of a `TransactionStatus` (`string(tx.Status)`). -/
def TxStatus.text : TxStatus → String
  | .pending => "pending"
  | .completed => "completed"
  | .failed => "failed"

/-- The Go string value of a `PaymentStatus` (`string(p.Status)`). -/
def PaymentStatus.text : PaymentStatus → String
  | .new => "new"
  | .pending => "pending"
  | .completed => "completed"
  | .failed => "failed"
  | .canceled => "canceled"

/-- Go's `uint64(x)` conversion of an `int64` value: reduction modulo `2 ^ 64`. -/
def uint64OfInt (x : Int) : Nat :=
  (x % (2 : Int) ^ 64).toNat

/-- Row of the `payments` table (sqlc `repository.Payment`); `uuid.UUID`
identifiers are modelled as `Nat`, `sql.NullString` / `sql.NullTime` as
`Option`, timestamps as integer seconds. -/
structure PaymentRow where
  id : Nat
  externalID : Option String
  currency : String
  totalAmount : Int
  status : PaymentStatus
  expiresAt : Option Int
  createdAt : Int
deriving DecidableEq, Repr

/-- Row of the `payment_destinations` table (sqlc
`repository.PaymentDestination`), which doubles as
`repository.CreatePaymentDestinationParams`: `Amount` is a
`sql.NullInt64` (value `amount`, flag `amountValid`) and `Percentage` a
`sql.NullInt16` (value `percentage`, flag `percentageValid`). -/
structure DestinationRow where
  paymentID : Nat
  destination : String
  amount : Int
  amountValid : Bool
  percentage : Int
  percentageValid : Bool
  totalAmount : Int
  discountAmount : Int
  applyBonus : Bool
  maxBonusAmount : Int
  maxBonusPercentage : Int
deriving DecidableEq, Repr

/-- Row of the `transactions` table (sqlc `repository.Transaction`). -/
structure TransactionRow where
  paymentID : Nat
  reference : String
  amount : Int
  discountAmount : Int
  txSignature : Option String
  status : TxStatus
  createdAt : Int
deriving DecidableEq, Repr

/-- The `repository.PaymentInfo` aggregate returned by `GetPaymentInfo`. -/
structure PaymentInfo where
  payment : PaymentRow
  destinations : List DestinationRow
  transactions : List TransactionRow
deriving DecidableEq, Repr

/-- `payment.MerchantSettings` from `payment/service.go`. -/
structure MerchantSettings where
  walletAddress : String
  applyBonus : Bool
  maxBonus : Nat
  maxBonusPerc : Nat
  bonusRate : Nat
  bonusMintAddr : String
  bonusMintAuth : String
deriving DecidableEq, Repr

/-- The settings validation performed by `payment.NewService`
(`payment/service.go`): bonus application is silently disabled when no
cap, no mint address or no mint authority is configured.  Note that a
zero `BonusRate` is not checked here. -/
def normalizeMerchantSettings (m : MerchantSettings) : MerchantSettings :=
  if m.applyBonus &&
      ((m.maxBonus == 0 && m.maxBonusPerc == 0) || m.bonusMintAddr == "" || m.bonusMintAuth == "")
  then { m with applyBonus := false }
  else m

/-- The `defaultCurrencies` ticker table from `payment/types.go`. -/
def defaultCurrencies : List (String × String) :=
  [("USDC", "EPjFWdd5AufqSSqeM2qN1xzybapC8G4wEGGkZwyTDt1v"),
   ("USDT", "Es9vMFrzaCERmJfrF4H2FYD4KCoNkY11McCe8BenwNYB"),
   ("SOL", "So11111111111111111111111111111111111111112")]

/-- Modelled from the spec: `payment.CurrencyMintAddress` is called by the
service but its body is not under src/.  Per the data model, a currency is
a ticker of one of the default currencies (resolved to its mint address
through `defaultCurrencies`) or already an SPL mint address, passed
through unchanged (the empty string stays empty and is rejected by the
caller). -/
def CurrencyMintAddress (currency : String) : String :=
  match defaultCurrencies.find? (fun p => p.1 == currency) with
  | some p => p.2
  | none => currency

/-- Modelled from the spec: `payment.IsSOL` is called by the service but
its body is not under src/.  It distinguishes SOL-native payments ("SOL"
or the wrapped-SOL mint address) from SPL-token payments, mirroring the
inline comparison `currency == "SOL" || currency == defaultCurrencies["SOL"]`
used elsewhere in the source. -/
def IsSOL (currency : String) : Bool :=
  currency == "SOL" || currency == "So11111111111111111111111111111111111111112"

/-- The value of the `dest.MaxBonusAmount` local after the two cap
clamps in `calcBonusAmount` (`payment/service.go`): a percentage cap is
clamped to 10000 basis points and turned into an absolute cap by
truncating division, and the absolute cap never exceeds the
destination's own amount.  Go's truncating `int64` division is
`Int.tdiv`. -/
def calcBonusCap (dest : DestinationRow) : Int :=
  let maxBonusPercentage :=
    if dest.maxBonusPercentage > 10000 then 10000 else dest.maxBonusPercentage
  let maxBonusAmount :=
    if dest.maxBonusAmount ≤ 0 && maxBonusPercentage > 0 then
      (dest.amount * maxBonusPercentage).tdiv 10000
    else dest.maxBonusAmount
  if maxBonusAmount > dest.amount then dest.amount else maxBonusAmount

/-- The value of the `bonusAmount` local of `calcBonusAmount` before the
pool-share clamp: the available balance capped at the destination cap,
or zero when the cap is not positive. -/
def calcBonusBase (availableBonus : Int) (dest : DestinationRow) : Int :=
  if calcBonusCap dest > 0 then
    if availableBonus > calcBonusCap dest then calcBonusCap dest else availableBonus
  else 0

/-- `calcBonusAmount` from `payment/service.go`: the discount granted to
a single destination out of the available bonus balance, with the
destination-local computations split into `calcBonusCap` and
`calcBonusBase` above.  The divisor `availableBonus` is nonzero in the
division branch because the first guard returns `0` when it is zero. -/
def calcBonusAmount (availableBonus : Int) (dest : DestinationRow) : Int :=
  if availableBonus == 0 || !dest.applyBonus ||
      (dest.maxBonusAmount ≤ 0 && dest.maxBonusPercentage ≤ 0) then 0
  else
    let bonusAmount := calcBonusBase availableBonus dest
    if dest.percentage > 0 && dest.percentage < 10000 then
      let bonusPercentage := (bonusAmount * 10000).tdiv availableBonus
      if bonusPercentage > dest.percentage then
        (availableBonus * dest.percentage).tdiv 10000
      else bonusAmount
    else bonusAmount

/-- The destination loop of `recalculatePaymentWithBonus`
(`payment/service.go`): every bonus-eligible destination with a positive
computed bonus gets its `DiscountAmount` and `TotalAmount` updated, and
the bonuses are summed.  The loop iterations are independent, so the
in-place Go loop is rendered as structural recursion. -/
def applyBonusToDestinations (availableDiscountAmount : Int) :
    List DestinationRow → List DestinationRow × Int
  | [] => ([], 0)
  | d :: rest =>
    let tail := applyBonusToDestinations availableDiscountAmount rest
    if d.applyBonus then
      let bonusAmount := calcBonusAmount availableDiscountAmount d
      if bonusAmount > 0 then
        ({ d with discountAmount := bonusAmount,
                  totalAmount := d.amount - bonusAmount } :: tail.1,
         bonusAmount + tail.2)
      else (d :: tail.1, tail.2)
    else (d :: tail.1, tail.2)

/-- `recalculatePaymentWithBonus` from `payment/service.go`:
`bonusBalance` is `int64(bonus.Amount)`, the customer's bonus-token
balance.  Returns the recalculated payment info together with the total
applied bonus, or the error the Go code returns when the payment has no
destinations or no bonus mint is configured. -/
def recalculatePaymentWithBonus (settings : MerchantSettings) (payment : PaymentInfo)
    (bonusBalance : Int) : Except String (PaymentInfo × Int) :=
  if payment.destinations.length == 0 || settings.bonusMintAddr == "" then
    .error "no payment destinations found"
  else
    let availableDiscountAmount := bonusBalance
    if availableDiscountAmount ≤ 0 then .ok (payment, 0)
    else
      let availableDiscountAmount :=
        if availableDiscountAmount > payment.payment.totalAmount then
          payment.payment.totalAmount
        else availableDiscountAmount
      let result := applyBonusToDestinations availableDiscountAmount payment.destinations
      .ok ({ payment with destinations := result.1 }, result.2)

/-- `checkBalance` from `payment/service.go`: the opportunistic payer
balance check.  The balance RPC results are passed in as values (the
RPC-failure paths also return errors in Go and are not modelled); both
branches reject unless the balance is strictly greater than the
required amount. -/
def checkBalance (solBalance tokenBalance : Nat) (currency : String) (amount : Nat) :
    Except String Unit :=
  if currency == "SOL" || currency == "So11111111111111111111111111111111111111112" then
    if solBalance ≤ amount then .error "insufficient SOL balance for transaction"
    else .ok ()
  else
    if tokenBalance ≤ amount then .error "insufficient token balance for transaction"
    else .ok ()

/-- One transfer observed inside a ledger transaction; `mint = none` is a
native SOL transfer, `mint = some m` an SPL-token transfer of mint `m`. -/
structure LedgerTransfer where
  destination : String
  mint : Option String
  amount : Nat
deriving DecidableEq, Repr

/-- The ledger transaction detail returned by
`GetOldestTransactionForWallet` (`client.GetTransactionResponse`):
`metaErr` is whether `Meta.Err != nil` (ledger-reported execution
error), `transfers` the transfers it performed. -/
structure LedgerTx where
  metaErr : Bool
  transfers : List LedgerTransfer
deriving DecidableEq, Repr

/-- Modelled from the spec: `solana.CheckSolTransferTransaction` is called
by `CheckPaymentStatus` but its body is not under src/.  Per the spec it
verifies that the expected destination transfer appears in the ledger
transaction as a native SOL transfer with the exact expected amount,
returning an error on any mismatch. -/
def CheckSolTransferTransaction (tx : LedgerTx) (destination : String) (amount : Nat) :
    Except String Unit :=
  if tx.transfers.any (fun t => t.mint == none && t.destination == destination && t.amount == amount)
  then .ok ()
  else .error "sol transfer mismatch"

/-- Modelled from the spec: `solana.CheckTokenTransferTransaction` is
called by `CheckPaymentStatus` but its body is not under src/.  Per the
spec it verifies that the expected destination transfer appears in the
ledger transaction as an SPL-token transfer of the expected mint with
the exact expected amount, returning an error on any mismatch. -/
def CheckTokenTransferTransaction (tx : LedgerTx) (mint destination : String) (amount : Nat) :
    Except String Unit :=
  if tx.transfers.any (fun t => t.mint == some mint && t.destination == destination && t.amount == amount)
  then .ok ()
  else .error "token transfer mismatch"

/-- Database state seen by the service operations on one payment: the
payment row, its destination rows, and its transaction rows. -/
structure DBState where
  payment : PaymentRow
  destinations : List DestinationRow
  transactions : List TransactionRow
deriving DecidableEq, Repr

/-- `repository.UpdateTransactionParams` from `repository/dbtx.go`. -/
structure UpdateTransactionParams where
  status : TxStatus
  reference : String
  txSignature : String
deriving DecidableEq, Repr

/-- `UpdateTransaction` from `repository/dbtx.go`: inside one database
transaction it loads the transaction by reference, updates its status
and signature (`UpdateTransactionByReference`, an `UPDATE ... WHERE
reference`), loads the owning payment, refuses if that payment is
already completed, cascades the payment status, and commits.  Every
error path returns the input state: the deferred `tx.Rollback()`
discards the staged writes. -/
def repoUpdateTransaction (arg : UpdateTransactionParams) (st : DBState) :
    DBState × Except String TransactionRow :=
  match st.transactions.find? (fun t => t.reference == arg.reference) with
  | none => (st, .error "failed to get transaction")
  | some _ =>
    let staged : DBState :=
      { st with
        transactions := st.transactions.map (fun t =>
          if t.reference == arg.reference then
            { t with
              txSignature := if arg.txSignature != "" then some arg.txSignature else none,
              status := arg.status }
          else t) }
    match staged.transactions.find? (fun t => t.reference == arg.reference) with
    | none => (st, .error "failed to update transaction")
    | some transaction =>
      if transaction.paymentID != st.payment.id then (st, .error "failed to get payment")
      else if st.payment.status == PaymentStatus.completed then
        (st, .error "payment is already completed")
      else
        let paymentStatus : PaymentStatus :=
          match arg.status with
          | .pending => .pending
          | .completed => .completed
          | .failed => .failed
        ({ staged with payment := { staged.payment with status := paymentStatus } },
         .ok transaction)

/-- `CancelPayment` from `payment/service.go`: loads the payment info,
rejects unless the status is `new`, sets the status to `canceled`, and
unsubscribes the reference keys of the payment's transactions.  The
result carries the new state, the list of unsubscribed references, and
the outcome. -/
def CancelPayment (paymentID : Nat) (st : DBState) :
    DBState × List String × Except String Unit :=
  if paymentID != st.payment.id then (st, [], .error "failed to get payment")
  else if st.payment.status != PaymentStatus.new then
    (st, [], .error "payment status is not new")
  else
    ({ st with payment := { st.payment with status := PaymentStatus.canceled } },
     (st.transactions.filter (fun t => t.paymentID == paymentID)).map (fun t => t.reference),
     .ok ())

/-- `CheckPaymentStatus` from `payment/service.go`.  `ledger` is the
result of `GetOldestTransactionForWallet(reference)` (signature and
transaction detail, or an error); `now` the current time in seconds.
Faithful points to note against the Go source:
the deferred repository update registered after `GetPaymentInfo`
succeeds decides failure only from `oldestTx.Meta.Err`, because the
destination checks inside the loop shadow the function-scope `err`
variable; and the destination loop returns during its first iteration
(both the mismatch branch and the unconditional trailing
`return completed`), so only the head destination is ever checked. -/
def CheckPaymentStatus (ledger : Except Unit (String × LedgerTx)) (now : Int)
    (reference : String) (st : DBState) : DBState × Except String String :=
  match st.transactions.find? (fun t => t.reference == reference) with
  | none => (st, .error "failed to get transaction by reference")
  | some transaction =>
    if transaction.status != TxStatus.pending then (st, .ok transaction.status.text)
    else
      match ledger with
      | .error _ =>
        if transaction.createdAt < now - 3600 then
          match repoUpdateTransaction ⟨.failed, reference, ""⟩ st with
          | (_, .error _) => (st, .error "failed to update transaction status")
          | (st2, .ok _) => (st2, .ok TxStatus.failed.text)
        else (st, .ok transaction.status.text)
      | .ok (txSig, oldestTx) =>
        if transaction.paymentID != st.payment.id then
          (st, .error "failed to get payment record")
        else
          let deferredStatus : TxStatus :=
            if oldestTx.metaErr then .failed else .completed
          let applyDeferred : DBState → DBState := fun s =>
            (repoUpdateTransaction ⟨deferredStatus, reference, txSig⟩ s).1
          match st.destinations with
          | [] => (applyDeferred st, .ok transaction.status.text)
          | dest :: _ =>
            let verified : Except String Unit :=
              if IsSOL st.payment.currency then
                CheckSolTransferTransaction oldestTx dest.destination
                  (uint64OfInt dest.totalAmount)
              else
                CheckTokenTransferTransaction oldestTx st.payment.currency
                  dest.destination (uint64OfInt dest.totalAmount)
            match verified with
            | .error _ => (applyDeferred st, .error "failed to check transfer transaction")
            | .ok _ => (applyDeferred st, .ok TxStatus.completed.text)

/-- `repository.CreatePaymentParams` (sqlc), without the time fields. -/
structure CreatePaymentParamsRow where
  externalID : Option String
  currency : String
  totalAmount : Int
  status : PaymentStatus
deriving DecidableEq, Repr

/-- Database state for payment creation: all payment rows and all
destination rows. -/
structure CreateDBState where
  payments : List PaymentRow
  destinations : List DestinationRow
deriving DecidableEq, Repr

/-- The destination-insert loop of `CreatePaymentWithDestinations`
(`repository/dbtx.go`): each row gets the new payment id;
`destInsertFails i` models a database failure of the i-th
`CreatePaymentDestination` insert, which aborts the loop. -/
def insertDestinations (destInsertFails : Nat → Bool) (i : Nat) (paymentID : Nat) :
    List DestinationRow → CreateDBState → Except String (CreateDBState × List DestinationRow)
  | [], st => .ok (st, [])
  | d :: rest, st =>
    if destInsertFails i then .error "failed to create payment destination"
    else
      let row := { d with paymentID := paymentID }
      match insertDestinations destInsertFails (i + 1) paymentID rest
          { st with destinations := st.destinations ++ [row] } with
      | .error e => .error e
      | .ok (st2, inserted) => .ok (st2, row :: inserted)

/-- `CreatePaymentWithDestinations` from `repository/dbtx.go`: inside one
database transaction it rejects a duplicate external ID, inserts the
payment row (fresh id `newID`), inserts the destination rows, and
commits.  Every error path returns the input state: the deferred
`tx.Rollback()` discards the staged writes. -/
def repoCreatePaymentWithDestinations (newID : Nat) (destInsertFails : Nat → Bool)
    (now : Int) (paymentArg : CreatePaymentParamsRow) (destArgs : List DestinationRow)
    (st : CreateDBState) : CreateDBState × Except String PaymentInfo :=
  if paymentArg.externalID.isSome &&
      st.payments.any (fun p => p.externalID == paymentArg.externalID) then
    (st, .error "payment with external ID already exists")
  else
    let payment : PaymentRow :=
      { id := newID, externalID := paymentArg.externalID, currency := paymentArg.currency,
        totalAmount := paymentArg.totalAmount, status := paymentArg.status,
        expiresAt := none, createdAt := now }
    let staged : CreateDBState := { st with payments := st.payments ++ [payment] }
    match insertDestinations destInsertFails 0 newID destArgs staged with
    | .error e => (st, .error e)
    | .ok (staged2, inserted) =>
      (staged2, .ok { payment := payment, destinations := inserted, transactions := [] })

/-- `payment.CreateDestinationParams` from `payment/service.go`. -/
structure CreateDestinationArg where
  amount : Int
  percentage : Int
  walletAddress : String
  applyBonus : Bool
  maxBonusAmount : Int
  maxBonusPercent : Int
deriving DecidableEq, Repr

/-- `payment.CreatePaymentParams` from `payment/service.go` (the optional
string fields that only feed memo/message columns are dropped). -/
structure CreatePaymentArgs where
  externalID : Option String
  currency : String
  amount : Int
  ttl : Int
  destinations : List CreateDestinationArg
deriving DecidableEq, Repr

/-- The destination-params row appended for one explicit destination in
the `CreatePayment` loop.  As in the source, the `Destination` field is
not set (zero value), and the `Valid` flags come from `*usePercentage`. -/
def destParamOf (usePercentage : Bool) (dest : CreateDestinationArg) : DestinationRow :=
  { paymentID := 0, destination := "",
    amount := dest.amount, amountValid := !usePercentage,
    percentage := dest.percentage, percentageValid := usePercentage,
    totalAmount := 0, discountAmount := 0,
    applyBonus := dest.applyBonus,
    maxBonusAmount := dest.maxBonusAmount,
    maxBonusPercentage := dest.maxBonusPercent }

/-- The destination validation loop of `CreatePayment`
(`payment/service.go`): rejects a spec that sets both or neither of
amount/percentage, fixes the mode (`usePercentage`) from the first
entry, rejects mixed modes, and accumulates the amount and percentage
sums while building the destination params. -/
def destinationLoop :
    List CreateDestinationArg → Option Bool → Int → Int → List DestinationRow →
    Except String (Option Bool × Int × Int × List DestinationRow)
  | [], usePercentage, totalAmount, totalPercent, destParams =>
    .ok (usePercentage, totalAmount, totalPercent, destParams)
  | dest :: rest, usePercentage, totalAmount, totalPercent, destParams =>
    if dest.amount > 0 && dest.percentage > 0 then
      .error "amount and percentage cannot be set at the same time"
    else if dest.amount ≤ 0 && dest.percentage ≤ 0 then
      .error "amount or percentage should be set"
    else
      match usePercentage with
      | none =>
        let u : Bool := decide (dest.amount ≤ 0) && decide (dest.percentage > 0)
        destinationLoop rest (some u) (totalAmount + dest.amount)
          (totalPercent + dest.percentage) (destParams ++ [destParamOf u dest])
      | some u =>
        if (u && decide (dest.amount > 0)) || (!u && decide (dest.percentage > 0)) then
          .error "cannot mix percentage and amount, use only one of them for all destinations"
        else
          destinationLoop rest (some u) (totalAmount + dest.amount)
            (totalPercent + dest.percentage) (destParams ++ [destParamOf u dest])

/-- `CreatePayment` from `payment/service.go`, up to and including the
validation and amount/percentage synchronization; on success it returns
the payment row params and destination params that are then persisted
through `CreatePaymentWithDestinations`.  Faithful points to note
against the Go source: the percentage-mode recalculation multiplies by
the loop-local `totalAmount` (the sum of the destination `Amount`
fields, which is `0` in percentage mode), not by the payment total; and
dereferencing the nil `usePercentage` pointer, reachable in Go only
when the short-circuit `TotalAmount <= 0` guard fires with no
destinations (excluded earlier by `amount should be greater than 0`),
is rendered as an explicit panic-shaped error. -/
def CreatePayment (settings : MerchantSettings) (arg : CreatePaymentArgs) :
    Except String (CreatePaymentParamsRow × List DestinationRow) :=
  let currency := CurrencyMintAddress arg.currency
  if currency == "" then .error "currency is required"
  else
    let loopResult : Except String (Option Bool × Int × Int × List DestinationRow) :=
      match arg.destinations with
      | [] =>
        if arg.amount ≤ 0 then .error "amount should be greater than 0"
        else
          .ok ((none : Option Bool), arg.amount, (0 : Int),
            [{ paymentID := 0, destination := settings.walletAddress,
               amount := arg.amount, amountValid := decide (arg.amount > 0),
               percentage := 10000, percentageValid := true,
               totalAmount := 0, discountAmount := 0,
               applyBonus := settings.applyBonus,
               maxBonusAmount := (settings.maxBonus : Int),
               maxBonusPercentage := (settings.maxBonusPerc : Int) }])
      | _ :: _ => destinationLoop arg.destinations none 0 0 []
    match loopResult with
    | .error e => .error e
    | .ok (usePercentage, totalAmount, totalPercent, destParams) =>
      let guard1 : Except String Unit :=
        if arg.amount ≤ 0 then
          match usePercentage with
          | none => .error "panic: nil pointer dereference"
          | some u =>
            if u then .error "total amount should be greater than 0 if percentage is used"
            else .ok ()
        else .ok ()
      match guard1 with
      | .error e => .error e
      | .ok _ =>
        if totalPercent > 0 && totalPercent != 10000 then
          .error "total percentage across all destinations should be equal to 10000"
        else
          let paymentTotal := if totalAmount > 0 then totalAmount else arg.amount
          let paymentRow : CreatePaymentParamsRow :=
            { externalID := arg.externalID, currency := currency,
              totalAmount := paymentTotal, status := PaymentStatus.new }
          if usePercentage == some true then
            let recTotalAmount :=
              (destParams.map (fun d => (totalAmount * d.percentage).tdiv 10000)).sum
            let destParams2 := destParams.map (fun d =>
              { d with amount := (totalAmount * d.percentage).tdiv 10000,
                       amountValid := true })
            if recTotalAmount != paymentTotal then
              .error "total amount should be equal to sum of all destinations"
            else .ok (paymentRow, destParams2)
          else
            let recTotalPercent :=
              (destParams.map (fun d => (d.amount * 10000).tdiv paymentTotal)).sum
            let destParams2 := destParams.map (fun d =>
              { d with percentage := (d.amount * 10000).tdiv paymentTotal,
                       percentageValid := true })
            if recTotalPercent != 10000 then
              .error "total percentage should be equal to 10000"
            else .ok (paymentRow, destParams2)

/-- One instruction of the composed ledger transaction, as produced by
the instruction constructors in the `solana` package; `rawSwap` stands
for one opaque decompiled instruction of the Jupiter conversion
transaction.  All amounts are the `uint64` values passed in Go. -/
inductive Instruction where
  | burnToken (mint tokenAccountOwner : String) (amount : Nat)
  | mintFungibleToken (funder mint mintOwner mintTo : String) (amount : Nat)
  | transferSOL (sender recipient reference : String) (amount : Nat)
  | transferToken (sender recipient mint reference : String) (amount : Nat)
  | rawSwap (index : Nat)
deriving DecidableEq, Repr

/-- Outcome classification for `GeneratePaymentTransaction`: a returned
Go error, or a Go runtime panic (which returns nothing). -/
inductive GenErr where
  | failure (msg : String)
  | panic (msg : String)
deriving DecidableEq, Repr

/-- Modelled from the spec: `solana.NewTransactionBuilder` and its
methods are called by the service but their bodies are not under src/.
Per the composer design, `AddInstruction` appends to the ordered
instruction sequence, `AddRawInstructionsToBeginning` prepends the
decompiled conversion instructions, and `AddSigner` records an extra
required signer beside the fee-paying payer. -/
structure TransactionBuilder where
  feePayer : String
  instructions : List Instruction
  signers : List String
deriving DecidableEq, Repr

/-- Append one instruction (builder `AddInstruction`). -/
def TransactionBuilder.addInstruction (b : TransactionBuilder) (i : Instruction) :
    TransactionBuilder :=
  { b with instructions := b.instructions ++ [i] }

/-- Prepend raw instructions (builder `AddRawInstructionsToBeginning`). -/
def TransactionBuilder.addRawInstructionsToBeginning (b : TransactionBuilder)
    (l : List Instruction) : TransactionBuilder :=
  { b with instructions := l ++ b.instructions }

/-- Record an extra signer (builder `AddSigner`). -/
def TransactionBuilder.addSigner (b : TransactionBuilder) (s : String) :
    TransactionBuilder :=
  { b with signers := b.signers ++ [s] }

/-- `payment.GeneratePaymentTransactionParams` from `payment/service.go`. -/
structure GeneratePaymentTransactionArgs where
  paymentID : Nat
  base58Addr : String
  currency : String
  applyBonus : Bool
deriving DecidableEq, Repr

/-- `GeneratePaymentTransaction` from `payment/service.go`.  Inputs that
Go obtains through collaborators are passed as values: `payment0` is the
`GetPaymentInfo` result, `bonusBalance` the customer's bonus-token
balance (`GetTokenBalance`, whose error Go discards), `swapInstructions`
the Jupiter `BestSwap` + decode result, `authPubkey` the
`types.AccountFromBase58` public-key derivation, `referencePub` the
freshly generated reference account key, and `solBalance`/`tokenBalance`
feed `checkBalance`.  The final `Build` serialization and the repository
insert are modelled as succeeding; the returned triple is the ordered
instruction sequence, the extra signers, and the pending transaction row
that `CreateTransactionWithCallback` persists.  The bonus-accrual
division `(TotalAmount - bonusAmount) / int64(BonusRate)` appears twice
in the source (once before the transfers, once after); both occurrences
panic in Go when `BonusRate` is zero, rendered as `GenErr.panic`. -/
def GeneratePaymentTransaction (settings : MerchantSettings)
    (payment0 : PaymentInfo) (bonusBalance : Int)
    (swapInstructions : Except String (List Instruction))
    (authPubkey : String → Option String) (referencePub : String)
    (solBalance tokenBalance : Nat) (now : Int)
    (args : GeneratePaymentTransactionArgs) :
    Except GenErr (List Instruction × List String × TransactionRow) :=
  if payment0.payment.expiresAt.elim false (fun t => decide (t < now)) then
    .error (.failure "payment is expired")
  else if payment0.payment.status != PaymentStatus.new &&
      payment0.payment.status != PaymentStatus.failed then
    .error (.failure "payment status is not new")
  else
    let currency := CurrencyMintAddress args.currency
    let builder0 : TransactionBuilder :=
      { feePayer := args.base58Addr, instructions := [], signers := [] }
    let bonusStep : Except GenErr (PaymentInfo × Int × TransactionBuilder) :=
      if args.applyBonus && settings.applyBonus then
        match recalculatePaymentWithBonus settings payment0 bonusBalance with
        | .error e => .error (.failure ("failed to recalculate payment with bonus: " ++ e))
        | .ok (payment1, bonusAmount) =>
          let builder1 :=
            if bonusAmount > 0 then
              builder0.addInstruction
                (.burnToken settings.bonusMintAddr args.base58Addr (uint64OfInt bonusAmount))
            else builder0
          if settings.bonusRate == 0 then
            .error (.panic "runtime error: integer divide by zero")
          else
            let amount := (payment1.payment.totalAmount - bonusAmount).tdiv
              (settings.bonusRate : Int)
            if amount > 0 then
              match authPubkey settings.bonusMintAuth with
              | none => .error (.failure "failed to decode bonus mint auth account")
              | some auth =>
                .ok (payment1, bonusAmount,
                  (builder1.addInstruction
                    (.mintFungibleToken args.base58Addr settings.bonusMintAddr auth
                      args.base58Addr (uint64OfInt amount))).addSigner auth)
            else .ok (payment1, bonusAmount, builder1)
      else .ok (payment0, 0, builder0)
    match bonusStep with
    | .error e => .error e
    | .ok (payment1, bonusAmount, builder1) =>
      let balanceCheck : Except GenErr Unit :=
        if currency == payment1.payment.currency then
          match checkBalance solBalance tokenBalance currency
              (uint64OfInt (payment1.payment.totalAmount - bonusAmount)) with
          | .error e => .error (.failure e)
          | .ok _ => .ok ()
        else .ok ()
      match balanceCheck with
      | .error e => .error e
      | .ok _ =>
        let swapStep : Except GenErr TransactionBuilder :=
          if currency != payment1.payment.currency then
            match swapInstructions with
            | .error _ => .error (.failure "failed to get best swap transaction")
            | .ok instrs => .ok (builder1.addRawInstructionsToBeginning instrs)
          else .ok builder1
        match swapStep with
        | .error e => .error e
        | .ok builder2 =>
          let builder3 :=
            if IsSOL payment1.payment.currency then
              payment1.destinations.foldl (fun b dest =>
                b.addInstruction (.transferSOL args.base58Addr dest.destination
                  referencePub (uint64OfInt dest.totalAmount))) builder2
            else
              payment1.destinations.foldl (fun b dest =>
                b.addInstruction (.transferToken args.base58Addr dest.destination
                  payment1.payment.currency referencePub
                  (uint64OfInt dest.totalAmount))) builder2
          let accrueStep : Except GenErr TransactionBuilder :=
            if args.applyBonus && settings.applyBonus then
              if settings.bonusRate == 0 then
                .error (.panic "runtime error: integer divide by zero")
              else
                let amount := (payment1.payment.totalAmount - bonusAmount).tdiv
                  (settings.bonusRate : Int)
                if amount > 0 then
                  match authPubkey settings.bonusMintAuth with
                  | none => .error (.failure "failed to decode bonus mint auth account")
                  | some auth =>
                    .ok ((builder3.addInstruction
                      (.mintFungibleToken args.base58Addr settings.bonusMintAddr auth
                        args.base58Addr (uint64OfInt amount))).addSigner auth)
                else .ok builder3
            else .ok builder3
          match accrueStep with
          | .error e => .error e
          | .ok builder4 =>
            .ok (builder4.instructions, builder4.signers,
              { paymentID := args.paymentID, reference := referencePub,
                amount := payment1.payment.totalAmount - bonusAmount,
                discountAmount := bonusAmount, txSignature := none,
                status := TxStatus.pending, createdAt := now })

/-- Outcome of the bonus allocation for one destination: either the row
is untouched, or it received a positive discount bounded by its own
amount, its residual amount is the difference, and that residual is
nonnegative. -/
def BonusOutcome (d d2 : DestinationRow) : Prop :=
  d2 = d ∨
    (0 < d2.discountAmount ∧ d2.discountAmount ≤ d.amount ∧
     d2.amount = d.amount ∧
     d2.totalAmount = d.amount - d2.discountAmount ∧ 0 ≤ d2.totalAmount)

/-- Merchant settings with bonus enabled (cap, mint and authority set)
and a unit accrual rate. -/
def oneRateSettings : MerchantSettings :=
  { walletAddress := "W", applyBonus := true, maxBonus := 1000, maxBonusPerc := 0,
    bonusRate := 1, bonusMintAddr := "MINT", bonusMintAuth := "AUTH" }

/-- Merchant settings with bonus enabled but a zero accrual rate; they
survive the `NewService` validation unchanged. -/
def zeroRateSettings : MerchantSettings :=
  { walletAddress := "W", applyBonus := true, maxBonus := 100, maxBonusPerc := 0,
    bonusRate := 0, bonusMintAddr := "MINT", bonusMintAuth := "AUTH" }

/-- First destination of the two-destination bonus payment: normalized
7000/3000-style split is not needed here; both destinations take half
the total with an absolute bonus cap of 10001. -/
def destA : DestinationRow :=
  { paymentID := 1, destination := "A", amount := 15000, amountValid := true,
    percentage := 5000, percentageValid := true, totalAmount := 15000,
    discountAmount := 0, applyBonus := true, maxBonusAmount := 10001,
    maxBonusPercentage := 0 }

/-- Second destination of the two-destination bonus payment. -/
def destB : DestinationRow :=
  { destA with destination := "B" }

/-- A normalized payment of total 30000 split equally over `destA` and
`destB` (amounts sum to the total, percentages sum to 10000). -/
def bonusPayment : PaymentInfo :=
  { payment := { id := 1, externalID := none, currency := "TOK", totalAmount := 30000,
                 status := PaymentStatus.new, expiresAt := none, createdAt := 0 },
    destinations := [destA, destB], transactions := [] }

/-- The bonus allocation result for `bonusPayment` with balance 20000:
each destination receives 10001. -/
def bonusPaymentOut : PaymentInfo :=
  { bonusPayment with
    destinations :=
      [{ destA with discountAmount := 10001, totalAmount := 4999 },
       { destB with discountAmount := 10001, totalAmount := 4999 }] }

/-- A payable payment of total 100 with one bonus-eligible destination
capped at 50. -/
def singleDestPayment : PaymentInfo :=
  { payment := { id := 1, externalID := none, currency := "TOK", totalAmount := 100,
                 status := PaymentStatus.new, expiresAt := none, createdAt := 0 },
    destinations := [{ paymentID := 1, destination := "D", amount := 100,
                       amountValid := true, percentage := 10000, percentageValid := true,
                       totalAmount := 100, discountAmount := 0, applyBonus := true,
                       maxBonusAmount := 50, maxBonusPercentage := 0 }],
    transactions := [] }

/-- Transaction-generation arguments with bonus application requested,
paying in the payment's own currency. -/
def payGenArgs : GeneratePaymentTransactionArgs :=
  { paymentID := 1, base58Addr := "PAYER", currency := "TOK", applyBonus := true }

/-- Database state for reconciliation: a pending token payment of 100
split 70/30 over destinations "A" and "B", with one pending transaction
under reference "R". -/
def reconState : DBState :=
  { payment := { id := 1, externalID := none, currency := "TOK", totalAmount := 100,
                 status := PaymentStatus.pending, expiresAt := none, createdAt := 0 },
    destinations :=
      [{ paymentID := 1, destination := "A", amount := 70, amountValid := true,
         percentage := 7000, percentageValid := true, totalAmount := 70,
         discountAmount := 0, applyBonus := false, maxBonusAmount := 0,
         maxBonusPercentage := 0 },
       { paymentID := 1, destination := "B", amount := 30, amountValid := true,
         percentage := 3000, percentageValid := true, totalAmount := 30,
         discountAmount := 0, applyBonus := false, maxBonusAmount := 0,
         maxBonusPercentage := 0 }],
    transactions := [{ paymentID := 1, reference := "R", amount := 100,
                       discountAmount := 0, txSignature := none,
                       status := TxStatus.pending, createdAt := 0 }] }

/-- A ledger transaction that transfers the expected 70 tokens to
destination "A" but carries no transfer at all for destination "B". -/
def reconLedgerTx : LedgerTx :=
  { metaErr := false,
    transfers := [{ destination := "A", mint := some "TOK", amount := 70 }] }

/-- `CreatePayment` input in percentage mode: total 10000, two
destinations of 5000 basis points each. -/
def percentModeArgs : CreatePaymentArgs :=
  { externalID := none, currency := "SOL", amount := 10000, ttl := 0,
    destinations :=
      [{ amount := 0, percentage := 5000, walletAddress := "A", applyBonus := false,
         maxBonusAmount := 0, maxBonusPercent := 0 },
       { amount := 0, percentage := 5000, walletAddress := "B", applyBonus := false,
         maxBonusAmount := 0, maxBonusPercent := 0 }] }

/-- Database state with a payment in status `new` and one transaction
under reference "R". -/
def stCancelNew : DBState :=
  { payment := { id := 1, externalID := none, currency := "TOK", totalAmount := 100,
                 status := PaymentStatus.new, expiresAt := none, createdAt := 0 },
    destinations := [],
    transactions := [{ paymentID := 1, reference := "R", amount := 100,
                       discountAmount := 0, txSignature := none,
                       status := TxStatus.pending, createdAt := 0 }] }

/-- Database state with a payment in status `failed`. -/
def stCancelFailed : DBState :=
  { stCancelNew with payment := { stCancelNew.payment with status := PaymentStatus.failed } }

/-- A transaction already in the terminal status `completed`. -/
def terminalTx : TransactionRow :=
  { paymentID := 1, reference := "R", amount := 100, discountAmount := 0,
    txSignature := some "SIG", status := TxStatus.completed, createdAt := 0 }

/-- Database state whose only transaction is already terminal. -/
def stTerminal : DBState :=
  { payment := { id := 1, externalID := none, currency := "TOK", totalAmount := 100,
                 status := PaymentStatus.completed, expiresAt := none, createdAt := 0 },
    destinations := [], transactions := [terminalTx] }

/-- Database state with a completed payment owning a pending
transaction under reference "R". -/
def stCompleted : DBState :=
  { payment := { id := 1, externalID := none, currency := "TOK", totalAmount := 100,
                 status := PaymentStatus.completed, expiresAt := none, createdAt := 0 },
    destinations := [],
    transactions := [{ paymentID := 1, reference := "R", amount := 100,
                       discountAmount := 0, txSignature := none,
                       status := TxStatus.pending, createdAt := 0 }] }

/-- An `UpdateTransaction` request trying to complete reference "R". -/
def updCompletedArg : UpdateTransactionParams :=
  { status := TxStatus.completed, reference := "R", txSignature := "SIG" }

/-- Creation-side database state already holding a payment with
external ID "EXT". -/
def stCreate : CreateDBState :=
  { payments := [{ id := 1, externalID := some "EXT", currency := "TOK",
                   totalAmount := 5, status := PaymentStatus.new, expiresAt := none,
                   createdAt := 0 }],
    destinations := [] }

/-- Payment-creation params reusing the already-taken external ID. -/
def dupExternalArg : CreatePaymentParamsRow :=
  { externalID := some "EXT", currency := "TOK", totalAmount := 5,
    status := PaymentStatus.new }

/-- Arithmetic core of the pool-share clamp of `calcBonusAmount`: when
the truncated share of `b0` in `A` exceeds `perc`, the recomputed bonus
`A * perc / 10000` is strictly below `b0`. -/
theorem tdiv_lt_of_mul_lt (A perc b0 : Int) (hA : 0 < A) (hb0 : 0 ≤ b0)
    (hperc : 0 < perc)
    (h : perc < (b0 * 10000).tdiv A) :
    (A * perc).tdiv 10000 < b0 := by
  have h10 : (0 : Int) < 10000 := by norm_num
  rw [Int.tdiv_eq_ediv (by positivity) (le_of_lt hA)] at h
  have h1 : (perc + 1) * A ≤ b0 * 10000 :=
    (Int.le_ediv_iff_mul_le hA).mp (by omega)
  have h2 : (A * perc).tdiv 10000 * 10000 ≤ A * perc := by
    rw [Int.tdiv_eq_ediv (by positivity) (by norm_num)]
    exact Int.ediv_mul_le _ (by norm_num)
  have h3 : A * perc < b0 * 10000 := by nlinarith
  nlinarith

/-- The clamped destination cap never exceeds the destination's amount. -/
theorem calcBonusCap_le (dest : DestinationRow) : calcBonusCap dest ≤ dest.amount := by
  unfold calcBonusCap
  dsimp only
  split_ifs <;> omega

/-- The pre-clamp bonus is nonnegative and bounded by the destination's
amount whenever the available balance is positive. -/
theorem calcBonusBase_bounds (availableBonus : Int) (dest : DestinationRow)
    (hA : 0 < availableBonus) (ha : 0 ≤ dest.amount) :
    0 ≤ calcBonusBase availableBonus dest ∧
      calcBonusBase availableBonus dest ≤ dest.amount := by
  have hcap := calcBonusCap_le dest
  unfold calcBonusBase
  split_ifs <;> omega

/-- The per-destination discount computed by `calcBonusAmount` is
nonnegative and bounded by the destination's amount whenever the
available balance is positive. -/
theorem calcBonusAmount_bounds (availableBonus : Int) (dest : DestinationRow)
    (hA : 0 < availableBonus) (ha : 0 ≤ dest.amount) :
    0 ≤ calcBonusAmount availableBonus dest ∧
      calcBonusAmount availableBonus dest ≤ dest.amount := by
  have hbase := calcBonusBase_bounds availableBonus dest hA ha
  unfold calcBonusAmount
  dsimp only
  split_ifs with h1 h2 h3
  · exact ⟨le_refl 0, ha⟩
  · have hperc : 0 < dest.percentage := by
      rcases Bool.and_eq_true .. |>.mp h2 with ⟨hp, _⟩
      simpa using of_decide_eq_true hp
    have hlt : (availableBonus * dest.percentage).tdiv 10000 <
        calcBonusBase availableBonus dest :=
      tdiv_lt_of_mul_lt availableBonus dest.percentage
        (calcBonusBase availableBonus dest) hA hbase.1 hperc (by omega)
    refine ⟨Int.tdiv_nonneg (by positivity) (by norm_num), by omega⟩
  · exact hbase
  · exact hbase

/-- The destination loop preserves the per-destination outcome relation
and its accumulated discount total is nonnegative and bounded by the sum
of the destination amounts. -/
theorem applyBonusToDestinations_bounds (A : Int) (hA : 0 < A) :
    ∀ l : List DestinationRow, (∀ d ∈ l, 0 ≤ d.amount) →
      List.Forall₂ BonusOutcome l (applyBonusToDestinations A l).1 ∧
      0 ≤ (applyBonusToDestinations A l).2 ∧
      (applyBonusToDestinations A l).2 ≤ (l.map (fun d => d.amount)).sum := by
  intro l
  induction l with
  | nil => intro _; simp [applyBonusToDestinations]
  | cons d rest ih =>
    intro hmem
    have hd : 0 ≤ d.amount := hmem d (by simp)
    have hrest := ih (fun x hx => hmem x (by simp [hx]))
    have hbounds := calcBonusAmount_bounds A d hA hd
    unfold applyBonusToDestinations
    dsimp only
    split_ifs with h1 h2
    · refine ⟨List.Forall₂.cons (Or.inr ?_) hrest.1, ?_, ?_⟩
      · refine ⟨h2, hbounds.2, rfl, rfl, ?_⟩
        simp only []
        omega
      · simp only []
        have := hrest.2.1
        omega
      · simp only [List.map_cons, List.sum_cons]
        have := hrest.2.2
        omega
    · exact ⟨List.Forall₂.cons (Or.inl rfl) hrest.1,
        hrest.2.1, by simp only [List.map_cons, List.sum_cons]; have := hrest.2.2; omega⟩
    · exact ⟨List.Forall₂.cons (Or.inl rfl) hrest.1,
        hrest.2.1, by simp only [List.map_cons, List.sum_cons]; have := hrest.2.2; omega⟩

/-- C2 (amended): for every destination table with nonnegative amounts
and positive payment total, the bonus allocation gives each destination
a discount `d` with `0 ≤ d ≤ amount` (so no residual amount is
negative) and the total discount is bounded by the sum of the
destination amounts (the payment total for a normalized table).  The
original bound by the available bonus balance does not hold: the
remaining balance is not decremented across destinations (see the
counterexample). -/
theorem recalculatePaymentWithBonus_bounds (settings : MerchantSettings)
    (payment payment2 : PaymentInfo) (bonusBalance totalBonus : Int)
    (htot : 0 < payment.payment.totalAmount)
    (hamt : ∀ d ∈ payment.destinations, 0 ≤ d.amount)
    (hok : recalculatePaymentWithBonus settings payment bonusBalance =
      .ok (payment2, totalBonus)) :
    List.Forall₂ BonusOutcome payment.destinations payment2.destinations ∧
      0 ≤ totalBonus ∧
      totalBonus ≤ (payment.destinations.map (fun d => d.amount)).sum := by
  have hsum : 0 ≤ (payment.destinations.map (fun d => d.amount)).sum := by
    apply List.sum_nonneg
    intro x hx
    rcases List.mem_map.mp hx with ⟨d, hd, rfl⟩
    exact hamt d hd
  unfold recalculatePaymentWithBonus at hok
  split at hok
  · exact absurd hok (by simp)
  · dsimp only at hok
    split at hok
    · simp only [Except.ok.injEq, Prod.mk.injEq] at hok
      obtain ⟨rfl, rfl⟩ := hok
      exact ⟨List.forall₂_same.mpr (fun d _ => Or.inl rfl), le_refl 0, hsum⟩
    · rename_i hpos
      simp only [Except.ok.injEq, Prod.mk.injEq] at hok
      obtain ⟨rfl, rfl⟩ := hok
      have hA : 0 < (if bonusBalance > payment.payment.totalAmount then
          payment.payment.totalAmount else bonusBalance) := by
        split_ifs <;> omega
      have hmain := applyBonusToDestinations_bounds _ hA payment.destinations hamt
      exact ⟨hmain.1, hmain.2.1, hmain.2.2⟩

/-- Witness for C2 (amended): the bounds instantiated on the concrete
normalized two-destination payment. -/
theorem recalculatePaymentWithBonus_bounds_witness :
    (0 : Int) < bonusPayment.payment.totalAmount ∧
      (∀ d ∈ bonusPayment.destinations, 0 ≤ d.amount) ∧
      recalculatePaymentWithBonus oneRateSettings bonusPayment 20000 =
        .ok (bonusPaymentOut, 20002) ∧
      (List.Forall₂ BonusOutcome bonusPayment.destinations bonusPaymentOut.destinations ∧
        (0 : Int) ≤ 20002 ∧
        (20002 : Int) ≤ (bonusPayment.destinations.map (fun d => d.amount)).sum) :=
  ⟨by decide, by decide, rfl,
    recalculatePaymentWithBonus_bounds oneRateSettings bonusPayment bonusPaymentOut
      20000 20002 (by decide) (by decide) rfl⟩

/-- Counterexample for C2 as stated: on the normalized two-destination
payment (amounts sum to the total 30000, percentages to 10000) with
available bonus balance 20000, the allocated discounts sum to 20002,
exceeding `min(availableBonus, paymentTotal) = 20000`. -/
theorem recalcBonus_sum_exceeds_available :
    recalculatePaymentWithBonus oneRateSettings bonusPayment 20000 =
      .ok (bonusPaymentOut, 20002) ∧
    bonusPayment.payment.totalAmount = 30000 ∧
    (bonusPayment.destinations.map (fun d => d.amount)).sum = 30000 ∧
    (bonusPayment.destinations.map (fun d => d.percentage)).sum = 10000 ∧
    ¬((20002 : Int) ≤ min 20000 30000) :=
  ⟨rfl, rfl, by decide, by decide, by decide⟩

/-- C1: an `UpdateTransaction` call on a database state whose payment is
already `completed` returns an error and leaves the whole state — the
payment's status and every transaction's status and signature —
unchanged, because the enclosing database transaction is rolled back;
hence a completed payment can never be changed by `UpdateTransaction`. -/
theorem updateTransaction_completed_sticky (arg : UpdateTransactionParams) (st : DBState)
    (h : st.payment.status = PaymentStatus.completed) :
    (repoUpdateTransaction arg st).1 = st ∧
      ∃ e, (repoUpdateTransaction arg st).2 = .error e := by
  unfold repoUpdateTransaction
  split
  · exact ⟨rfl, _, rfl⟩
  · dsimp only
    split
    · exact ⟨rfl, _, rfl⟩
    · rename_i transaction heq
      by_cases h1 : (transaction.paymentID != st.payment.id) = true
      · rw [if_pos h1]
        exact ⟨rfl, _, rfl⟩
      · rw [if_neg h1, if_pos (by simp [h])]
        exact ⟨rfl, _, rfl⟩

/-- Witness for C1: the sticky-completed theorem applied to a concrete
completed payment with a pending transaction under reference "R". -/
theorem updateTransaction_completed_sticky_witness :
    stCompleted.payment.status = PaymentStatus.completed ∧
      ((repoUpdateTransaction updCompletedArg stCompleted).1 = stCompleted ∧
        ∃ e, (repoUpdateTransaction updCompletedArg stCompleted).2 = .error e) :=
  ⟨rfl, updateTransaction_completed_sticky updCompletedArg stCompleted rfl⟩

/-- C3: reconciliation of the concrete pending transaction whose ledger
transaction matches destination "A" but carries no transfer for
destination "B" nevertheless reports "completed" and marks both the
transaction and the payment completed — the destination loop returns
during its first iteration, so the second destination is never
verified, contradicting the claim that completion requires every
destination to match. -/
theorem checkPaymentStatus_first_destination_only :
    (CheckPaymentStatus (.ok ("SIG", reconLedgerTx)) 10000 "R" reconState).2 =
      .ok "completed" ∧
    ((CheckPaymentStatus (.ok ("SIG", reconLedgerTx)) 10000 "R" reconState).1.transactions.map
        (fun t => t.status)) = [TxStatus.completed] ∧
    (CheckPaymentStatus (.ok ("SIG", reconLedgerTx)) 10000 "R" reconState).1.payment.status =
      PaymentStatus.completed ∧
    reconLedgerTx.transfers.any
      (fun t => t.mint == some "TOK" && t.destination == "B" &&
        t.amount == uint64OfInt 30) = false :=
  ⟨rfl, rfl, rfl, by decide⟩

/-- C4: with bonus enabled and a zero accrual rate — a configuration the
`NewService` validation accepts unchanged — transaction generation hits
the division `(TotalAmount - bonusAmount) / int64(BonusRate)` with a
zero divisor and panics instead of completing without a mint
instruction. -/
theorem generatePaymentTransaction_zero_rate_panics :
    normalizeMerchantSettings zeroRateSettings = zeroRateSettings ∧
    GeneratePaymentTransaction zeroRateSettings singleDestPayment 0 (.ok [])
        (fun s => some s) "REF" 1000 1000 0 payGenArgs =
      .error (.panic "runtime error: integer divide by zero") :=
  ⟨rfl, rfl⟩

/-- C5: a successful generation with bonus applied (balance 10, rate 1)
emits the mint-bonus instruction twice — once before the transfer and
once after it — instead of a single trailing mint, because the accrual
block is duplicated in the source. -/
theorem generatePaymentTransaction_mints_twice :
    GeneratePaymentTransaction oneRateSettings singleDestPayment 10 (.ok [])
        (fun s => some s) "REF" 1000 1000 0 payGenArgs =
      .ok ([Instruction.burnToken "MINT" "PAYER" 10,
            Instruction.mintFungibleToken "PAYER" "MINT" "AUTH" "PAYER" 90,
            Instruction.transferToken "PAYER" "D" "TOK" "REF" 90,
            Instruction.mintFungibleToken "PAYER" "MINT" "AUTH" "PAYER" 90],
           ["AUTH", "AUTH"],
           { paymentID := 1, reference := "REF", amount := 90, discountAmount := 10,
             txSignature := none, status := TxStatus.pending, createdAt := 0 }) :=
  rfl

/-- C6: `CreatePayment` rejects the percentage-mode input of total 10000
split 5000/5000 with "total amount should be equal to sum of all
destinations", although the floor-division amounts
`total * percentage / 10000` sum back exactly to the total — the
recalculation multiplies by the loop-local destination-amount sum
(zero in percentage mode) instead of the payment total. -/
theorem createPayment_rejects_exact_percentage_split :
    CreatePayment oneRateSettings percentModeArgs =
      .error "total amount should be equal to sum of all destinations" ∧
    ((10000 : Int) * 5000).tdiv 10000 + ((10000 : Int) * 5000).tdiv 10000 =
      percentModeArgs.amount :=
  ⟨rfl, by decide⟩

/-- C7 (amended): `CancelPayment` succeeds only for a payment whose
status is `new` — setting the status to `canceled` and unsubscribing
the reference keys of the payment's transactions — and returns an
error, leaving the payment status unchanged and unsubscribing nothing,
for a payment in any other status (including `failed`, which the
original claim wrongly listed as cancellable). -/
theorem cancelPayment_spec (paymentID : Nat) (st : DBState)
    (hid : st.payment.id = paymentID) :
    (st.payment.status = PaymentStatus.new →
      CancelPayment paymentID st =
        ({ st with payment := { st.payment with status := PaymentStatus.canceled } },
         (st.transactions.filter (fun t => t.paymentID == paymentID)).map
           (fun t => t.reference),
         .ok ())) ∧
    (st.payment.status ≠ PaymentStatus.new →
      (CancelPayment paymentID st).1 = st ∧
        (CancelPayment paymentID st).2.1 = [] ∧
        (CancelPayment paymentID st).2.2 = .error "payment status is not new" ∧
        (CancelPayment paymentID st).1.payment.status = st.payment.status) := by
  constructor
  · intro hnew
    unfold CancelPayment
    rw [if_neg (by simp [hid]), if_neg (by simp [hnew])]
  · intro hne
    unfold CancelPayment
    rw [if_neg (by simp [hid]), if_pos (by simp [hne])]
    exact ⟨rfl, rfl, rfl, rfl⟩

/-- Witness for C7 (amended): cancelling the concrete `new` payment
succeeds, cancels, and unsubscribes reference "R". -/
theorem cancelPayment_spec_witness :
    stCancelNew.payment.id = 1 ∧ stCancelNew.payment.status = PaymentStatus.new ∧
      CancelPayment 1 stCancelNew =
        ({ stCancelNew with
            payment := { stCancelNew.payment with status := PaymentStatus.canceled } },
         ["R"], .ok ()) :=
  ⟨rfl, rfl, (cancelPayment_spec 1 stCancelNew rfl).1 rfl⟩

/-- Counterexample for C7 as stated: cancelling the concrete payment in
status `failed` returns an error and leaves the state unchanged,
although the claim says cancellation succeeds from `failed`. -/
theorem cancelPayment_failed_rejected :
    stCancelFailed.payment.status = PaymentStatus.failed ∧
    (CancelPayment 1 stCancelFailed).2.2 = .error "payment status is not new" ∧
    (CancelPayment 1 stCancelFailed).1 = stCancelFailed :=
  ⟨rfl, rfl, rfl⟩

/-- C8: reconciliation of a transaction that is already terminal returns
the stored status immediately, for every possible ledger answer and
clock (so the ledger is not consulted), leaves the state untouched, and
a second invocation returns the same status again. -/
theorem checkPaymentStatus_terminal_noop
    (ledger ledger2 : Except Unit (String × LedgerTx)) (now now2 : Int)
    (reference : String) (st : DBState) (t : TransactionRow)
    (hfind : st.transactions.find? (fun x => x.reference == reference) = some t)
    (hterm : t.status ≠ TxStatus.pending) :
    CheckPaymentStatus ledger now reference st = (st, .ok t.status.text) ∧
      CheckPaymentStatus ledger2 now2 reference
        (CheckPaymentStatus ledger now reference st).1 = (st, .ok t.status.text) := by
  have hmain : ∀ (l : Except Unit (String × LedgerTx)) (n : Int),
      CheckPaymentStatus l n reference st = (st, .ok t.status.text) := by
    intro l n
    unfold CheckPaymentStatus
    rw [hfind]
    dsimp only
    rw [if_pos (by simp [hterm])]
  refine ⟨hmain ledger now, ?_⟩
  rw [hmain ledger now]
  exact hmain ledger2 now2

/-- Witness for C8: the terminal no-op applied to the concrete completed
transaction, once with a ledger error and once with a ledger answer. -/
theorem checkPaymentStatus_terminal_noop_witness :
    stTerminal.transactions.find? (fun x => x.reference == "R") = some terminalTx ∧
      terminalTx.status ≠ TxStatus.pending ∧
      (CheckPaymentStatus (.error ()) 0 "R" stTerminal =
          (stTerminal, .ok terminalTx.status.text) ∧
        CheckPaymentStatus (.ok ("SIG", reconLedgerTx)) 99 "R"
            (CheckPaymentStatus (.error ()) 0 "R" stTerminal).1 =
          (stTerminal, .ok terminalTx.status.text)) :=
  ⟨rfl, by decide,
    checkPaymentStatus_terminal_noop (.error ()) (.ok ("SIG", reconLedgerTx)) 0 99 "R"
      stTerminal terminalTx rfl (by decide)⟩

/-- C9: the opportunistic balance check rejects a payer whose balance
exactly equals the required amount — both the SOL branch and the token
branch compare with `balance <= amount` — and accepts only a strictly
greater balance. -/
theorem checkBalance_rejects_exact_balance (solBalance tokenBalance amount : Nat)
    (currency : String) (hsol : solBalance = amount) (htok : tokenBalance = amount) :
    (∃ e, checkBalance solBalance tokenBalance currency amount = .error e) ∧
    (∀ sol tok : Nat, amount < sol → amount < tok →
      checkBalance sol tok currency amount = .ok ()) := by
  constructor
  · unfold checkBalance
    by_cases h : (currency == "SOL" ||
        currency == "So11111111111111111111111111111111111111112") = true
    · rw [if_pos h, if_pos (by omega : solBalance ≤ amount)]
      exact ⟨_, rfl⟩
    · rw [if_neg h, if_pos (by omega : tokenBalance ≤ amount)]
      exact ⟨_, rfl⟩
  · intro sol tok hs ht
    unfold checkBalance
    by_cases h : (currency == "SOL" ||
        currency == "So11111111111111111111111111111111111111112") = true
    · rw [if_pos h, if_neg (by omega)]
    · rw [if_neg h, if_neg (by omega)]

/-- Witness for C9: a payer holding exactly 5 lamports is rejected for a
5-lamport payment, and strictly larger balances pass. -/
theorem checkBalance_rejects_exact_balance_witness :
    (5 : Nat) = 5 ∧
      ((∃ e, checkBalance 5 5 "SOL" 5 = .error e) ∧
        (∀ sol tok : Nat, 5 < sol → 5 < tok → checkBalance sol tok "SOL" 5 = .ok ())) :=
  ⟨rfl, checkBalance_rejects_exact_balance 5 5 5 "SOL" rfl rfl⟩

/-- The destination-insert loop fails whenever some insert within the
argument list fails. -/
theorem insertDestinations_error_exists (f : Nat → Bool) (pid : Nat) :
    ∀ (l : List DestinationRow) (i : Nat) (st : CreateDBState),
      (∃ j, j < l.length ∧ f (i + j) = true) →
      ∃ e, insertDestinations f i pid l st = .error e := by
  intro l
  induction l with
  | nil => intro i st ⟨j, hj, _⟩; exact absurd hj (by simp)
  | cons d rest ih =>
    intro i st ⟨j, hj, hf⟩
    unfold insertDestinations
    by_cases hfi : f i = true
    · rw [if_pos hfi]
      exact ⟨_, rfl⟩
    · rw [if_neg hfi]
      have hj0 : j ≠ 0 := by
        rintro rfl
        simp at hj hf
        exact hfi (by simpa using hf)
      obtain ⟨j2, rfl⟩ := Nat.exists_eq_succ_of_ne_zero hj0
      obtain ⟨e, he⟩ := ih (i + 1)
        { st with destinations := st.destinations ++ [{ d with paymentID := pid }] }
        ⟨j2, by simpa using hj,
          by rw [show i + 1 + j2 = i + (j2 + 1) by omega]; exact hf⟩
      refine ⟨e, ?_⟩
      dsimp only
      rw [he]

/-- C10: payment creation is all-or-nothing — whenever
`CreatePaymentWithDestinations` returns an error the state is exactly
the input state (no payment row and no destination row persisted), a
supplied external ID that already belongs to an existing payment always
yields an error, and a failure of any destination insert always yields
an error. -/
theorem createPaymentWithDestinations_atomic (newID : Nat) (f : Nat → Bool)
    (now : Int) (paymentArg : CreatePaymentParamsRow) (destArgs : List DestinationRow)
    (st : CreateDBState) :
    ((∃ e, (repoCreatePaymentWithDestinations newID f now paymentArg destArgs st).2 =
        .error e) →
      (repoCreatePaymentWithDestinations newID f now paymentArg destArgs st).1 = st) ∧
    ((paymentArg.externalID.isSome = true ∧
        st.payments.any (fun p => p.externalID == paymentArg.externalID) = true) →
      ∃ e, (repoCreatePaymentWithDestinations newID f now paymentArg destArgs st).2 =
        .error e) ∧
    ((∃ j, j < destArgs.length ∧ f j = true) →
      ∃ e, (repoCreatePaymentWithDestinations newID f now paymentArg destArgs st).2 =
        .error e) := by
  refine ⟨?_, ?_, ?_⟩
  · intro ⟨e, he⟩
    unfold repoCreatePaymentWithDestinations at he ⊢
    split
    · rfl
    · rename_i hdup
      rw [if_neg hdup] at he
      dsimp only at he ⊢
      split
      · rfl
      · rename_i st2 inserted heq
        rw [heq] at he
        exact absurd he (by simp)
  · intro ⟨h1, h2⟩
    unfold repoCreatePaymentWithDestinations
    rw [if_pos (by simp [h1, h2])]
    exact ⟨_, rfl⟩
  · intro ⟨j, hj, hf⟩
    unfold repoCreatePaymentWithDestinations
    split
    · exact ⟨_, rfl⟩
    · obtain ⟨e, he⟩ := insertDestinations_error_exists f newID destArgs 0 _
        ⟨j, hj, by simpa using hf⟩
      dsimp only
      rw [he]
      exact ⟨e, rfl⟩

/-- Witness for C10: creating a payment whose external ID "EXT" already
exists fails and leaves the concrete state untouched. -/
theorem createPaymentWithDestinations_atomic_witness :
    (dupExternalArg.externalID.isSome = true ∧
      stCreate.payments.any (fun p => p.externalID == dupExternalArg.externalID) = true) ∧
    (∃ e, (repoCreatePaymentWithDestinations 2 (fun _ => false) 0 dupExternalArg []
        stCreate).2 = .error e) ∧
    (repoCreatePaymentWithDestinations 2 (fun _ => false) 0 dupExternalArg []
        stCreate).1 = stCreate := by
  have T := createPaymentWithDestinations_atomic 2 (fun _ => false) 0 dupExternalArg [] stCreate
  have hdup : dupExternalArg.externalID.isSome = true ∧
      stCreate.payments.any (fun p => p.externalID == dupExternalArg.externalID) = true :=
    ⟨rfl, by decide⟩
  have herr := T.2.1 hdup
  exact ⟨hdup, herr, T.1 herr⟩

end Checkout
